import Mathlib

/-!
# Tegra system timer: `arch/arm/mach-tegra/timer.c`

A shallow embedding of the timer driver.  The module-level variables of the C
file and the three memory-mapped register blocks it touches (timer, RTC and
the per-CPU TWD block) become fields of one explicit `State`; every driver
function becomes a state-passing Lean function.  Each register block is
indexed by the byte offset that the C code adds to the block base.  Every
MMIO access and every externally visible action (invoking the clock-event
callback, `WARN`) is appended to `State.log`, so that the order and the
number of accesses can be stated.

Machine integers are natural numbers with explicit reduction modulo `2^32`
or `2^64` wherever the C arithmetic can wrap.
-/

namespace TegraTimer

/-- Constants that `timer.c` uses but that are defined in headers outside the
translated sources (`timer.h`, `asm/smp_twd.h`, the kernel configuration).
They are parameters of the model: nothing is assumed about their values
except what a theorem states explicitly. -/
structure Platform where
  /-- Kernel tick rate `HZ`. -/
  HZ : Nat
  TIMER_PTV : Nat
  TIMER_PCR : Nat
  TIMERUS_CNTR_1US : Nat
  TIMERUS_USEC_CFG : Nat
  RTC_MILLISECONDS : Nat
  RTC_SHADOW_SECONDS : Nat
  TWD_TIMER_CONTROL : Nat
  TWD_TIMER_LOAD : Nat
  TWD_TIMER_COUNTER : Nat
  TWD_TIMER_CONTROL_ENABLE : Nat
  TWD_TIMER_CONTROL_PERIODIC : Nat
  TWD_TIMER_CONTROL_IT_ENABLE : Nat

/-- Externally visible actions of the driver, in program order. -/
inductive Event where
  | timer_read (reg : Nat)
  | timer_write (value reg : Nat)
  | rtc_read (reg : Nat)
  | twd_read (reg : Nat)
  | twd_write (value reg : Nat)
  | event_handler
  | warn
  deriving DecidableEq, Repr

/-- The kernel `struct timespec`: seconds and nanoseconds. -/
structure timespec where
  tv_sec : Int
  tv_nsec : Int
  deriving DecidableEq, Repr

/-- The modes of `enum clock_event_mode` that `tegra_timer_set_mode`
switches over. -/
inductive clock_event_mode where
  | CLOCK_EVT_MODE_UNUSED
  | CLOCK_EVT_MODE_SHUTDOWN
  | CLOCK_EVT_MODE_PERIODIC
  | CLOCK_EVT_MODE_ONESHOT
  | CLOCK_EVT_MODE_RESUME
  deriving DecidableEq, Repr

/-- Return values of an interrupt handler (`irqreturn_t`). -/
inductive irqreturn_t where
  | IRQ_NONE
  | IRQ_HANDLED
  | IRQ_WAKE_THREAD
  deriving DecidableEq, Repr

/-- The saved state of one local timer (`struct tegra_twd_context`). -/
structure tegra_twd_context where
  twd_ctrl : Nat
  twd_load : Nat
  twd_cnt : Nat
  deriving DecidableEq, Repr

/-- The hardware registers and the static variables of `timer.c`. -/
structure State where
  /-- Timer block, indexed by offset from `timer_reg_base`. -/
  timer_regs : Nat → Nat
  /-- RTC block, indexed by offset from `rtc_base`. -/
  rtc_regs : Nat → Nat
  /-- Local timer block, indexed by offset from `twd_base`. -/
  twd_regs : Nat → Nat
  persistent_ts : timespec
  persistent_ms : Nat
  last_persistent_ms : Nat
  usec_config : Nat
  usec_offset : Nat
  usec_suspended : Bool
  system_timer : Nat
  log : List Event

/-- Modulus of `u32` arithmetic. -/
def U32_MOD : Nat := 4294967296

/-- Modulus of `u64` arithmetic. -/
def U64_MOD : Nat := 18446744073709551616

/-- Conversion of a C `int` value to `u32` (reduction modulo `2^32`). -/
def int_to_u32 (i : Int) : Nat := (i % 4294967296).toNat

/-- The macro `timer_writel(value, reg)`. -/
def timer_writel (value reg : Nat) (s : State) : State :=
  { s with
    timer_regs := fun r => if r = reg then value else s.timer_regs r
    log := s.log ++ [Event.timer_write value reg] }

/-- The macro `timer_readl(reg)`. -/
def timer_readl (reg : Nat) (s : State) : Nat × State :=
  (s.timer_regs reg, { s with log := s.log ++ [Event.timer_read reg] })

/-- The function `tegra_timer_set_next_event`; the result pairs the returned
`int` with the state after the call. -/
def tegra_timer_set_next_event (P : Platform) (cycles : Nat) (s : State) : Int × State :=
  let reg := (0x80000000 ||| (if cycles > 1 then cycles - 1 else 0)) % U32_MOD
  let s1 := timer_writel reg (s.system_timer + P.TIMER_PTV) s
  (0, s1)

/-- The function `tegra_timer_set_mode`. -/
def tegra_timer_set_mode (P : Platform) (mode : clock_event_mode) (s : State) : State :=
  let s1 := timer_writel 0 (s.system_timer + P.TIMER_PTV) s
  match mode with
  | .CLOCK_EVT_MODE_PERIODIC =>
    let reg := (0xC0000000 ||| int_to_u32 (((1000000 / P.HZ : Nat) : Int) - 1)) % U32_MOD
    timer_writel reg (s1.system_timer + P.TIMER_PTV) s1
  | .CLOCK_EVT_MODE_ONESHOT => s1
  | .CLOCK_EVT_MODE_UNUSED => s1
  | .CLOCK_EVT_MODE_SHUTDOWN => s1
  | .CLOCK_EVT_MODE_RESUME => s1

/-- The function `tegra_read_sched_clock`: the raw value of the free-running
microsecond counter. -/
def tegra_read_sched_clock (P : Platform) (s : State) : Nat × State :=
  timer_readl P.TIMERUS_CNTR_1US s

/-- Modelled from the spec: the scheduling-clock consumer registered by
`setup_sched_clock(tegra_read_sched_clock, 32, 1000000)`, whose code is not
among the sources.  The spec says that it computes the ticks elapsed between
two raw samples by modular subtraction over the stated bit width, 32. -/
def sched_clock_delta (previous current : Nat) : Nat :=
  int_to_u32 ((current : Int) - (previous : Int))

/-- A read `readl(rtc_base + reg)` of the RTC block. -/
def rtc_readl (reg : Nat) (s : State) : Nat × State :=
  (s.rtc_regs reg, { s with log := s.log ++ [Event.rtc_read reg] })

/-- Modelled from the spec: the constant `MSEC_PER_SEC` of `linux/time.h`,
which is not among the sources; the spec computes `seconds * 1000`. -/
def MSEC_PER_SEC : Nat := 1000

/-- Modelled from the spec: the constant `NSEC_PER_MSEC` of `linux/time.h`,
which is not among the sources; milliseconds become nanoseconds. -/
def NSEC_PER_MSEC : Nat := 1000000

/-- Modelled from the spec: the constant `NSEC_PER_SEC` of `linux/time.h`,
which is not among the sources. -/
def NSEC_PER_SEC : Nat := 1000000000

/-- The function `tegra_rtc_read_ms`: the milliseconds register is read
first, then the shadow seconds register; the result is computed in `u64`. -/
def tegra_rtc_read_ms (P : Platform) (s : State) : Nat × State :=
  let r1 := rtc_readl P.RTC_MILLISECONDS s
  let ms := r1.1
  let r2 := rtc_readl P.RTC_SHADOW_SECONDS r1.2
  let sec := r2.1
  (((sec % U64_MOD * MSEC_PER_SEC) % U64_MOD + ms) % U64_MOD, r2.2)

/-- Modelled from the spec: `timespec_add_ns` of `linux/time.h`, which is
not among the sources, together with the width of the fields of
`struct timespec`.  The spec says that the elapsed time, converted to
nanoseconds, is added to the accumulated timestamp (seconds plus
nanoseconds): the sum of the nanosecond field and `ns` is split into whole
seconds, carried into `tv_sec`, and a remainder below one second.  The spec
gives no width for the seconds field, so `tv_sec` is unbounded here. -/
def timespec_add_ns (a : timespec) (ns : Nat) : timespec :=
  { tv_sec := a.tv_sec + (a.tv_nsec + (ns : Int)) / (NSEC_PER_SEC : Int)
    tv_nsec := (a.tv_nsec + (ns : Int)) % (NSEC_PER_SEC : Int) }

/-- Subtraction of `u64` values. -/
def u64_sub (a b : Nat) : Nat := (((a : Int) - (b : Int)) % 18446744073709551616).toNat

/-- The function `read_persistent_clock`; the first component of the result
is the timestamp stored through the pointer `ts`. -/
def read_persistent_clock (P : Platform) (s : State) : timespec × State :=
  let s1 := { s with last_persistent_ms := s.persistent_ms }
  let r := tegra_rtc_read_ms P s1
  let s2 := { r.2 with persistent_ms := r.1 }
  let delta := u64_sub s2.persistent_ms s2.last_persistent_ms
  let s3 := { s2 with
    persistent_ts := timespec_add_ns s2.persistent_ts ((delta * NSEC_PER_MSEC) % U64_MOD) }
  (s3.persistent_ts, s3)

/-- The hardware replaces the contents of the RTC block (time passes); the
variables of the driver are untouched. -/
def rtc_advance (rtc : Nat → Nat) (s : State) : State :=
  { s with rtc_regs := rtc }

/-- The hardware replaces the contents of the timer block (the counters run,
or the block is reset while the system sleeps); the variables of the driver
are untouched. -/
def timer_advance (regs : Nat → Nat) (s : State) : State :=
  { s with timer_regs := regs }

/-- The combined millisecond value `seconds * 1000 + milliseconds` of an RTC
block content. -/
def rtc_ms (P : Platform) (rtc : Nat → Nat) : Nat :=
  rtc P.RTC_SHADOW_SECONDS * 1000 + rtc P.RTC_MILLISECONDS

/-- Successive calls of `read_persistent_clock`, the RTC block holding the
next element of `readings` at each call; the result lists the timestamps
returned, in call order. -/
def persistent_clock_calls (P : Platform) : List (Nat → Nat) → State → List timespec
  | [], _ => []
  | rtc :: rest, s =>
    (read_persistent_clock P (rtc_advance rtc s)).1 ::
      persistent_clock_calls P rest (read_persistent_clock P (rtc_advance rtc s)).2

/-- The value of a timestamp in nanoseconds. -/
def timespec_to_ns (t : timespec) : Int := t.tv_sec * 1000000000 + t.tv_nsec

/-- The order of timestamps: by seconds, then by nanoseconds (the order of
`timespec_compare`). -/
def timespec_le (a b : timespec) : Prop :=
  a.tv_sec < b.tv_sec ∨ (a.tv_sec = b.tv_sec ∧ a.tv_nsec ≤ b.tv_nsec)

/-- What holds of two consecutive calls of `read_persistent_clock`, each
given as the RTC block content at the call paired with the timestamp
returned: the timestamp does not decrease, and it grows by the difference of
the combined millisecond values times 1,000,000 nanoseconds. -/
def consecutive_calls_agree (P : Platform) (a b : (Nat → Nat) × timespec) : Prop :=
  timespec_le a.2 b.2 ∧
  timespec_to_ns b.2 - timespec_to_ns a.2
    = ((rtc_ms P b.1 : Int) - (rtc_ms P a.1 : Int)) * 1000000

/-- The function `tegra_timer_interrupt`.  The callback `evt->event_handler`
is code of the clock-event framework that runs on the machine state, and may
call back into the driver (for instance `tegra_timer_set_next_event`); it is
the parameter `handler`.  Its invocation is recorded in the log before it
runs. -/
def tegra_timer_interrupt (P : Platform) (handler : State → State) (s : State) :
    irqreturn_t × State :=
  let s1 := timer_writel (1 <<< 30) (s.system_timer + P.TIMER_PCR) s
  let s2 := handler { s1 with log := s1.log ++ [Event.event_handler] }
  (irqreturn_t.IRQ_HANDLED, s2)

/-- What `tegra_timer_interrupt`, entered in state `s`, has done when it
hands the state `s1` to the callback: one write of `1 << 30` to the PCR
register of the system timer, the invocation recorded after it, and no other
register and no variable of the driver changed. -/
def interrupt_reaches_handler (P : Platform) (s s1 : State) : Prop :=
  s1.log = s.log ++ [Event.timer_write (1 <<< 30) (s.system_timer + P.TIMER_PCR),
    Event.event_handler] ∧
  s1.timer_regs (s.system_timer + P.TIMER_PCR) = 1 <<< 30 ∧
  (∀ reg, reg ≠ s.system_timer + P.TIMER_PCR → s1.timer_regs reg = s.timer_regs reg) ∧
  s1.rtc_regs = s.rtc_regs ∧
  s1.twd_regs = s.twd_regs ∧
  s1.persistent_ts = s.persistent_ts ∧
  s1.persistent_ms = s.persistent_ms ∧
  s1.last_persistent_ms = s.last_persistent_ms ∧
  s1.usec_config = s.usec_config ∧
  s1.usec_offset = s.usec_offset ∧
  s1.usec_suspended = s.usec_suspended ∧
  s1.system_timer = s.system_timer

/-- A callback that reprograms the event timer, as the clock-event framework
does in one-shot mode: it calls `tegra_timer_set_next_event` with `cycles`. -/
def reprogramming_handler (P : Platform) (cycles : Nat) (s : State) : State :=
  (tegra_timer_set_next_event P cycles s).2

/-- The function `tegra_timer_suspend`; the result pairs the returned `int`
with the state after the call. -/
def tegra_timer_suspend (P : Platform) (s : State) : Int × State :=
  let r1 := timer_readl P.TIMERUS_USEC_CFG s
  let s1 := { r1.2 with usec_config := r1.1 }
  let r2 := timer_readl P.TIMERUS_CNTR_1US s1
  let s2 := { r2.2 with usec_offset := (r2.2.usec_offset + r2.1) % U32_MOD }
  let s3 := { s2 with usec_suspended := true }
  (0, s3)

/-- The function `tegra_timer_resume`. -/
def tegra_timer_resume (P : Platform) (s : State) : State :=
  let s1 := timer_writel s.usec_config P.TIMERUS_USEC_CFG s
  let r := timer_readl P.TIMERUS_CNTR_1US s1
  let s2 := { r.2 with usec_offset := int_to_u32 ((r.2.usec_offset : Int) - (r.1 : Int)) }
  { s2 with usec_suspended := false }

/-- A read `readl(twd_base + reg)` of the local timer block. -/
def twd_readl (reg : Nat) (s : State) : Nat × State :=
  (s.twd_regs reg, { s with log := s.log ++ [Event.twd_read reg] })

/-- A write `writel(value, twd_base + reg)` to the local timer block. -/
def twd_writel (value reg : Nat) (s : State) : State :=
  { s with
    twd_regs := fun r => if r = reg then value else s.twd_regs r
    log := s.log ++ [Event.twd_write value reg] }

/-- The function `tegra_twd_suspend`; the first component of the result is
the context left behind the pointer `context`.  A C value used as a condition
is true when it is not zero. -/
def tegra_twd_suspend (P : Platform) (context : tegra_twd_context) (s : State) :
    tegra_twd_context × State :=
  let r1 := twd_readl P.TWD_TIMER_CONTROL s
  let c1 := { context with twd_ctrl := r1.1 }
  let r2 := twd_readl P.TWD_TIMER_LOAD r1.2
  let c2 := { c1 with twd_load := r2.1 }
  if c2.twd_load = 0 ∧
      c2.twd_ctrl &&& P.TWD_TIMER_CONTROL_PERIODIC ≠ 0 ∧
      c2.twd_ctrl &&& (P.TWD_TIMER_CONTROL_ENABLE ||| P.TWD_TIMER_CONTROL_IT_ENABLE) ≠ 0 then
    let s3 := { r2.2 with log := r2.2.log ++ [Event.warn] }
    let c3 := { c2 with twd_load := 1 }
    (c3, twd_writel 0 P.TWD_TIMER_CONTROL s3)
  else
    (c2, twd_writel 0 P.TWD_TIMER_CONTROL r2.2)

/-- The function `tegra_twd_resume`.  `Except.error` is the fatal stop of
`BUG_ON`; it carries the machine state at the moment of the stop. -/
def tegra_twd_resume (P : Platform) (context : tegra_twd_context) (s : State) :
    Except State State :=
  if context.twd_load = 0 ∧
      context.twd_ctrl &&& P.TWD_TIMER_CONTROL_PERIODIC ≠ 0 ∧
      context.twd_ctrl &&& (P.TWD_TIMER_CONTROL_ENABLE ||| P.TWD_TIMER_CONTROL_IT_ENABLE) ≠ 0 then
    Except.error s
  else
    let s1 := twd_writel context.twd_load P.TWD_TIMER_LOAD s
    Except.ok (twd_writel context.twd_ctrl P.TWD_TIMER_CONTROL s1)

/-- An RTC block content whose shadow seconds register holds `sec` and whose
milliseconds register holds `ms`. -/
def rtc_block (P : Platform) (sec ms : Nat) : Nat → Nat :=
  fun reg => if reg = P.RTC_SHADOW_SECONDS then sec else if reg = P.RTC_MILLISECONDS then ms else 0

/-- A timer block content whose microsecond counter holds `cntr` and whose
configuration register holds `cfg`. -/
def timer_block (P : Platform) (cntr cfg : Nat) : Nat → Nat :=
  fun reg => if reg = P.TIMERUS_CNTR_1US then cntr else if reg = P.TIMERUS_USEC_CFG then cfg else 0

/-- A local timer block content with the given control and load values. -/
def twd_block (P : Platform) (ctrl load : Nat) : Nat → Nat :=
  fun reg => if reg = P.TWD_TIMER_CONTROL then ctrl else if reg = P.TWD_TIMER_LOAD then load else 0

/-- Three successive calls of `tegra_read_sched_clock`, the timer block
holding `regs1`, `regs2` and `regs3` at the first, second and third call; the
result lists the three raw values returned. -/
def sched_clock_samples (P : Platform) (regs1 regs2 regs3 : Nat → Nat) (s : State) :
    Nat × Nat × Nat :=
  let r1 := tegra_read_sched_clock P (timer_advance regs1 s)
  let r2 := tegra_read_sched_clock P (timer_advance regs2 r1.2)
  let r3 := tegra_read_sched_clock P (timer_advance regs3 r2.2)
  (r1.1, r2.1, r3.1)

/-- Successive calls of `read_persistent_clock`, as in
`persistent_clock_calls`; the result is the state after the last call. -/
def persistent_clock_run (P : Platform) : List (Nat → Nat) → State → State
  | [], s => s
  | rtc :: rest, s =>
    persistent_clock_run P rest (read_persistent_clock P (rtc_advance rtc s)).2

/-- The value of the local variable `delta` of `read_persistent_clock` when
it is called in state `s`: the millisecond count read from the RTC minus the
count stored by the previous call, in `u64`. -/
def persistent_clock_delta (P : Platform) (s : State) : Nat :=
  u64_sub (tegra_rtc_read_ms P s).1 s.persistent_ms

/-- The argument `delta * NSEC_PER_MSEC` that `read_persistent_clock`, called
in state `s`, passes to `timespec_add_ns`, computed in `u64`. -/
def persistent_clock_added_ns (P : Platform) (s : State) : Nat :=
  (persistent_clock_delta P s * NSEC_PER_MSEC) % U64_MOD

/-- The Tegra 3 register layout with a 100 Hz tick, used to instantiate the
theorems at a concrete platform. -/
def tegra3 : Platform where
  HZ := 100
  TIMER_PTV := 0
  TIMER_PCR := 4
  TIMERUS_CNTR_1US := 16
  TIMERUS_USEC_CFG := 20
  RTC_MILLISECONDS := 16
  RTC_SHADOW_SECONDS := 12
  TWD_TIMER_CONTROL := 8
  TWD_TIMER_LOAD := 0
  TWD_TIMER_COUNTER := 4
  TWD_TIMER_CONTROL_ENABLE := 1
  TWD_TIMER_CONTROL_PERIODIC := 2
  TWD_TIMER_CONTROL_IT_ENABLE := 4

/-- The state at boot: all registers and all static variables are zero. -/
def boot : State where
  timer_regs := fun _ => 0
  rtc_regs := fun _ => 0
  twd_regs := fun _ => 0
  persistent_ts := { tv_sec := 0, tv_nsec := 0 }
  persistent_ms := 0
  last_persistent_ms := 0
  usec_config := 0
  usec_offset := 0
  usec_suspended := false
  system_timer := 0
  log := []

/-! ## Auxiliary facts -/

theorem or_high_bits (k a b : Nat) (hb : b < 2 ^ k) : 2 ^ k * a ||| b = 2 ^ k * a + b :=
  (Nat.mul_add_lt_is_or hb a).symm

theorem timer_writel_reads_back (value reg : Nat) (s : State) :
    (timer_writel value reg s).timer_regs reg = value := by
  simp [timer_writel]

theorem int_to_u32_pred (q : Nat) (h1 : 1 ≤ q) (h2 : q ≤ 1000000) :
    int_to_u32 ((q : Int) - 1) = q - 1 := by
  unfold int_to_u32
  omega

/-! ## The programmable event timer -/

/-- C1: for `0 < cycles ≤ 2^29 - 1`, `tegra_timer_set_next_event` returns 0
and leaves in the PTV register of the system timer the value
`0x80000000 | (cycles > 1 ? cycles - 1 : 0)`: bit 31 (enable) is set and the
29-bit countdown field is `cycles - 1`, or 0 when `cycles ≤ 1`. -/
theorem set_next_event_programs_ptv (P : Platform) (s : State) (cycles : Nat)
    (hpos : 0 < cycles) (hmax : cycles ≤ 2 ^ 29 - 1) :
    (tegra_timer_set_next_event P cycles s).1 = 0 ∧
    (tegra_timer_set_next_event P cycles s).2.timer_regs (s.system_timer + P.TIMER_PTV)
      = 0x80000000 ||| (if cycles > 1 then cycles - 1 else 0) ∧
    ((tegra_timer_set_next_event P cycles s).2.timer_regs
      (s.system_timer + P.TIMER_PTV)).testBit 31 = true ∧
    (tegra_timer_set_next_event P cycles s).2.timer_regs (s.system_timer + P.TIMER_PTV) % 2 ^ 29
      = (if cycles > 1 then cycles - 1 else 0) := by
  have hc : (if cycles > 1 then cycles - 1 else 0) < 2 ^ 29 := by
    split <;> omega
  have hor : 0x80000000 ||| (if cycles > 1 then cycles - 1 else 0)
      = 2 ^ 31 + (if cycles > 1 then cycles - 1 else 0) := by
    have h := or_high_bits 31 1 (if cycles > 1 then cycles - 1 else 0) (by omega)
    simpa using h
  have hreg : (tegra_timer_set_next_event P cycles s).2.timer_regs
      (s.system_timer + P.TIMER_PTV)
      = 2 ^ 31 + (if cycles > 1 then cycles - 1 else 0) := by
    simp only [tegra_timer_set_next_event, timer_writel_reads_back, U32_MOD, hor]
    omega
  refine ⟨rfl, ?_, ?_, ?_⟩
  · rw [hreg, hor]
  · rw [hreg, Nat.testBit_two_pow_add_eq, Nat.testBit_lt_two_pow (by omega)]
    rfl
  · rw [hreg]
    omega

/-- Witness for C1 at `cycles = 5` on the boot state. -/
theorem set_next_event_programs_ptv_witness :
    (tegra_timer_set_next_event tegra3 5 boot).1 = 0 ∧
    (tegra_timer_set_next_event tegra3 5 boot).2.timer_regs
      (boot.system_timer + tegra3.TIMER_PTV)
      = 0x80000000 ||| (if 5 > 1 then 5 - 1 else 0) ∧
    ((tegra_timer_set_next_event tegra3 5 boot).2.timer_regs
      (boot.system_timer + tegra3.TIMER_PTV)).testBit 31 = true ∧
    (tegra_timer_set_next_event tegra3 5 boot).2.timer_regs
      (boot.system_timer + tegra3.TIMER_PTV) % 2 ^ 29
      = (if 5 > 1 then 5 - 1 else 0) :=
  set_next_event_programs_ptv tegra3 boot 5 (by decide) (by decide)

/-- C2: for every prior state and every mode other than periodic,
`tegra_timer_set_mode` leaves the PTV register of the system timer equal
to 0. -/
theorem set_mode_non_periodic_disarms (P : Platform) (s : State) (mode : clock_event_mode)
    (hmode : mode ≠ clock_event_mode.CLOCK_EVT_MODE_PERIODIC) :
    (tegra_timer_set_mode P mode s).timer_regs (s.system_timer + P.TIMER_PTV) = 0 := by
  cases mode <;> first
    | exact absurd rfl hmode
    | simp [tegra_timer_set_mode, timer_writel_reads_back]

/-- Witness for C2: shutting down a timer that was armed by a previous
`tegra_timer_set_next_event`. -/
theorem set_mode_non_periodic_disarms_witness :
    (tegra_timer_set_mode tegra3 clock_event_mode.CLOCK_EVT_MODE_SHUTDOWN
      (tegra_timer_set_next_event tegra3 5 boot).2).timer_regs
      ((tegra_timer_set_next_event tegra3 5 boot).2.system_timer + tegra3.TIMER_PTV) = 0 :=
  set_mode_non_periodic_disarms tegra3 (tegra_timer_set_next_event tegra3 5 boot).2
    clock_event_mode.CLOCK_EVT_MODE_SHUTDOWN (by decide)

/-- C3: for `1 ≤ HZ ≤ 1000000`, `tegra_timer_set_mode` in periodic mode
performs exactly two accesses, a write of 0 to PTV followed by a write of
`0xC0000000 | (1000000 / HZ - 1)` to PTV; PTV is left holding that value,
with bits 31 and 30 set and countdown field `1000000 / HZ - 1`. -/
theorem set_mode_periodic_programs_ptv (P : Platform) (s : State)
    (hlo : 1 ≤ P.HZ) (hhi : P.HZ ≤ 1000000) :
    (tegra_timer_set_mode P clock_event_mode.CLOCK_EVT_MODE_PERIODIC s).log
      = s.log ++ [Event.timer_write 0 (s.system_timer + P.TIMER_PTV),
          Event.timer_write (0xC0000000 ||| (1000000 / P.HZ - 1))
            (s.system_timer + P.TIMER_PTV)] ∧
    (tegra_timer_set_mode P clock_event_mode.CLOCK_EVT_MODE_PERIODIC s).timer_regs
      (s.system_timer + P.TIMER_PTV) = 0xC0000000 ||| (1000000 / P.HZ - 1) ∧
    ((tegra_timer_set_mode P clock_event_mode.CLOCK_EVT_MODE_PERIODIC s).timer_regs
      (s.system_timer + P.TIMER_PTV)).testBit 31 = true ∧
    ((tegra_timer_set_mode P clock_event_mode.CLOCK_EVT_MODE_PERIODIC s).timer_regs
      (s.system_timer + P.TIMER_PTV)).testBit 30 = true ∧
    (tegra_timer_set_mode P clock_event_mode.CLOCK_EVT_MODE_PERIODIC s).timer_regs
      (s.system_timer + P.TIMER_PTV) % 2 ^ 29 = 1000000 / P.HZ - 1 := by
  have hq1 : 1 ≤ 1000000 / P.HZ := (Nat.one_le_div_iff (by omega)).mpr hhi
  have hq2 : 1000000 / P.HZ ≤ 1000000 := Nat.div_le_self _ _
  have hconv := int_to_u32_pred (1000000 / P.HZ) hq1 hq2
  have hor : 0xC0000000 ||| (1000000 / P.HZ - 1) = 2 ^ 31 + (2 ^ 30 + (1000000 / P.HZ - 1)) := by
    have h := or_high_bits 30 3 (1000000 / P.HZ - 1) (by omega)
    norm_num at h ⊢
    omega
  have hwr : (0xC0000000 ||| int_to_u32 (((1000000 / P.HZ : Nat) : Int) - 1)) % U32_MOD
      = 0xC0000000 ||| (1000000 / P.HZ - 1) := by
    rw [hconv, hor, U32_MOD]
    omega
  have hreg : (tegra_timer_set_mode P clock_event_mode.CLOCK_EVT_MODE_PERIODIC s).timer_regs
      (s.system_timer + P.TIMER_PTV) = 0xC0000000 ||| (1000000 / P.HZ - 1) := by
    simp only [tegra_timer_set_mode, hwr]
    simp [timer_writel]
  refine ⟨?_, hreg, ?_, ?_, ?_⟩
  · simp only [tegra_timer_set_mode, hwr]
    simp [timer_writel]
  · rw [hreg, hor, Nat.testBit_two_pow_add_eq, Nat.testBit_lt_two_pow (by omega)]
    rfl
  · rw [hreg, hor, Nat.testBit_two_pow_add_gt (by omega), Nat.testBit_two_pow_add_eq,
      Nat.testBit_lt_two_pow (by omega)]
    rfl
  · rw [hreg, hor]
    omega


/-- Witness for C3: the Tegra 3 platform with a tick rate of 100 Hz, from
the boot state. -/
theorem set_mode_periodic_programs_ptv_witness :
    (tegra_timer_set_mode tegra3 clock_event_mode.CLOCK_EVT_MODE_PERIODIC boot).log
      = boot.log ++ [Event.timer_write 0 (boot.system_timer + tegra3.TIMER_PTV),
          Event.timer_write (0xC0000000 ||| (1000000 / tegra3.HZ - 1))
            (boot.system_timer + tegra3.TIMER_PTV)] ∧
    (tegra_timer_set_mode tegra3 clock_event_mode.CLOCK_EVT_MODE_PERIODIC boot).timer_regs
      (boot.system_timer + tegra3.TIMER_PTV) = 0xC0000000 ||| (1000000 / tegra3.HZ - 1) ∧
    ((tegra_timer_set_mode tegra3 clock_event_mode.CLOCK_EVT_MODE_PERIODIC boot).timer_regs
      (boot.system_timer + tegra3.TIMER_PTV)).testBit 31 = true ∧
    ((tegra_timer_set_mode tegra3 clock_event_mode.CLOCK_EVT_MODE_PERIODIC boot).timer_regs
      (boot.system_timer + tegra3.TIMER_PTV)).testBit 30 = true ∧
    (tegra_timer_set_mode tegra3 clock_event_mode.CLOCK_EVT_MODE_PERIODIC boot).timer_regs
      (boot.system_timer + tegra3.TIMER_PTV) % 2 ^ 29 = 1000000 / tegra3.HZ - 1 :=
  set_mode_periodic_programs_ptv tegra3 boot (by decide) (by decide)

/-! ## The persistent clock -/

theorem rtc_read_ms_exact (P : Platform) (s : State)
    (hs : s.rtc_regs P.RTC_SHADOW_SECONDS < 2 ^ 32)
    (hm : s.rtc_regs P.RTC_MILLISECONDS < 2 ^ 32) :
    (tegra_rtc_read_ms P s).1 = rtc_ms P s.rtc_regs := by
  simp only [tegra_rtc_read_ms, rtc_readl, rtc_ms, U64_MOD, MSEC_PER_SEC]
  omega

theorem read_persistent_clock_returns_ts (P : Platform) (s : State) :
    (read_persistent_clock P s).1 = (read_persistent_clock P s).2.persistent_ts := rfl

theorem read_persistent_clock_ms (P : Platform) (s : State) (rtc : Nat → Nat)
    (hs : rtc P.RTC_SHADOW_SECONDS < 2 ^ 32) (hm : rtc P.RTC_MILLISECONDS < 2 ^ 32) :
    (read_persistent_clock P (rtc_advance rtc s)).2.persistent_ms = rtc_ms P rtc := by
  have h := rtc_read_ms_exact P
    { rtc_advance rtc s with last_persistent_ms := (rtc_advance rtc s).persistent_ms } hs hm
  simpa [read_persistent_clock] using h

theorem timespec_add_ns_normalised (a : timespec) (ns : Nat) :
    0 ≤ (timespec_add_ns a ns).tv_nsec ∧ (timespec_add_ns a ns).tv_nsec < 1000000000 := by
  simp only [timespec_add_ns, NSEC_PER_SEC]
  omega

theorem timespec_add_ns_value (a : timespec) (ns : Nat) :
    timespec_to_ns (timespec_add_ns a ns) = timespec_to_ns a + ns := by
  simp only [timespec_add_ns, timespec_to_ns, NSEC_PER_SEC]
  omega

theorem timespec_add_ns_le (a : timespec) (ns : Nat) (h0 : 0 ≤ a.tv_nsec)
    (h1 : a.tv_nsec < 1000000000) : timespec_le a (timespec_add_ns a ns) := by
  simp only [timespec_add_ns, timespec_le, NSEC_PER_SEC]
  omega

theorem read_persistent_clock_normalised (P : Platform) (s : State) :
    0 ≤ (read_persistent_clock P s).2.persistent_ts.tv_nsec ∧
    (read_persistent_clock P s).2.persistent_ts.tv_nsec < 1000000000 :=
  timespec_add_ns_normalised _ _

theorem rtc_read_ms_state (P : Platform) (s : State) :
    (tegra_rtc_read_ms P s).2 = { s with
      log := s.log ++ [Event.rtc_read P.RTC_MILLISECONDS, Event.rtc_read P.RTC_SHADOW_SECONDS] } := by
  simp [tegra_rtc_read_ms, rtc_readl]

theorem read_persistent_clock_added (P : Platform) (s : State) (rtc : Nat → Nat)
    (hs : rtc P.RTC_SHADOW_SECONDS < 2 ^ 32) (hm : rtc P.RTC_MILLISECONDS < 2 ^ 32)
    (hle : s.persistent_ms ≤ rtc_ms P rtc) :
    (read_persistent_clock P (rtc_advance rtc s)).2.persistent_ts
      = timespec_add_ns s.persistent_ts ((rtc_ms P rtc - s.persistent_ms) * 1000000) := by
  have h := rtc_read_ms_exact P
    { rtc_advance rtc s with last_persistent_ms := (rtc_advance rtc s).persistent_ms } hs hm
  have hb : rtc_ms P rtc < 2 ^ 32 * 1001 := by
    simp only [rtc_ms]
    omega
  have hd : u64_sub (rtc_ms P rtc) s.persistent_ms = rtc_ms P rtc - s.persistent_ms := by
    unfold u64_sub
    omega
  simp only [read_persistent_clock, rtc_read_ms_state]
  rw [h]
  simp only [rtc_advance, hd, NSEC_PER_MSEC, U64_MOD]
  congr 1
  omega

theorem persistent_clock_chain (P : Platform) :
    ∀ (rest : List (Nat → Nat)) (s : State) (r0 : Nat → Nat),
      s.persistent_ms = rtc_ms P r0 →
      0 ≤ s.persistent_ts.tv_nsec → s.persistent_ts.tv_nsec < 1000000000 →
      (∀ r ∈ rest, r P.RTC_SHADOW_SECONDS < 2 ^ 32 ∧ r P.RTC_MILLISECONDS < 2 ^ 32) →
      List.Chain (fun a b => rtc_ms P a ≤ rtc_ms P b) r0 rest →
      List.Chain (consecutive_calls_agree P) (r0, s.persistent_ts)
        (rest.zip (persistent_clock_calls P rest s)) := by
  intro rest
  induction rest with
  | nil =>
    intro s r0 _ _ _ _ _
    exact List.Chain.nil
  | cons r rest ih =>
    intro s r0 hms h0 h1 hu32 hchain
    have hr := hu32 r (List.mem_cons_self r rest)
    have hle : rtc_ms P r0 ≤ rtc_ms P r := (List.chain_cons.mp hchain).1
    have hts := read_persistent_clock_added P s r hr.1 hr.2 (by rw [hms]; exact hle)
    have hnorm := read_persistent_clock_normalised P (rtc_advance r s)
    have hnext := ih (read_persistent_clock P (rtc_advance r s)).2 r
      (read_persistent_clock_ms P s r hr.1 hr.2) hnorm.1 hnorm.2
      (fun x hx => hu32 x (List.mem_cons_of_mem r hx)) (List.chain_cons.mp hchain).2
    simp only [persistent_clock_calls, List.zip_cons_cons, read_persistent_clock_returns_ts]
    refine List.Chain.cons ⟨?_, ?_⟩ hnext
    · show timespec_le s.persistent_ts _
      rw [hts]
      exact timespec_add_ns_le _ _ h0 h1
    · show timespec_to_ns _ - timespec_to_ns s.persistent_ts = _
      rw [hts, timespec_add_ns_value, hms]
      push_cast [Nat.cast_sub hle]
      ring

/-- C4: for every starting state and every sequence of RTC readings, each a
pair of 32-bit register values, whose combined millisecond value
`seconds * 1000 + milliseconds` never decreases from one call to the next,
`read_persistent_clock` returns one timestamp per call, consecutive
timestamps never decrease, and the difference of two consecutive timestamps
in nanoseconds is the difference of the combined millisecond values times
1,000,000. -/
theorem persistent_clock_monotone (P : Platform) (s : State) (readings : List (Nat → Nat))
    (hu32 : ∀ r ∈ readings, r P.RTC_SHADOW_SECONDS < 2 ^ 32 ∧ r P.RTC_MILLISECONDS < 2 ^ 32)
    (hmono : List.Chain' (fun a b => rtc_ms P a ≤ rtc_ms P b) readings) :
    (persistent_clock_calls P readings s).length = readings.length ∧
    List.Chain' (consecutive_calls_agree P)
      (readings.zip (persistent_clock_calls P readings s)) := by
  constructor
  · clear hu32 hmono
    induction readings generalizing s with
    | nil => rfl
    | cons r rest ih => simp [persistent_clock_calls, ih]
  · cases readings with
    | nil => exact List.chain'_nil
    | cons r rest =>
      have hr := hu32 r (List.mem_cons_self r rest)
      have hnorm := read_persistent_clock_normalised P (rtc_advance r s)
      have h := persistent_clock_chain P rest (read_persistent_clock P (rtc_advance r s)).2 r
        (read_persistent_clock_ms P s r hr.1 hr.2) hnorm.1 hnorm.2
        (fun x hx => hu32 x (List.mem_cons_of_mem r hx)) hmono
      simpa [persistent_clock_calls, read_persistent_clock_returns_ts] using h

/-- Witness for C4: three readings from the boot state, 5.999 s, 7.001 s and
7.001 s again. -/
theorem persistent_clock_monotone_witness :
    (persistent_clock_calls tegra3
      [rtc_block tegra3 5 999, rtc_block tegra3 7 1, rtc_block tegra3 7 1] boot).length
      = [rtc_block tegra3 5 999, rtc_block tegra3 7 1, rtc_block tegra3 7 1].length ∧
    List.Chain' (consecutive_calls_agree tegra3)
      ([rtc_block tegra3 5 999, rtc_block tegra3 7 1, rtc_block tegra3 7 1].zip
        (persistent_clock_calls tegra3
          [rtc_block tegra3 5 999, rtc_block tegra3 7 1, rtc_block tegra3 7 1] boot)) :=
  persistent_clock_monotone tegra3 boot
    [rtc_block tegra3 5 999, rtc_block tegra3 7 1, rtc_block tegra3 7 1]
    (by
      intro r hr
      simp only [List.mem_cons, List.mem_singleton, List.not_mem_nil, or_false] at hr
      rcases hr with rfl | rfl | rfl <;> decide)
    (by
      simp only [List.chain'_cons, List.chain'_singleton, and_true]
      decide)

/-! ## Suspend and resume of the microsecond counter -/

/-- C5: for every state whose offset accumulator is a 32-bit value, and every
pair of raw counter values, `c1` held by the counter register when
`tegra_timer_suspend` runs and `c2` held when `tegra_timer_resume` runs, the
two calls leave `usec_offset` equal to `(old + c1 - c2) mod 2^32`; when
`c1 = c2` the accumulator is back at its value before the suspend. -/
theorem suspend_resume_offset (P : Platform) (s : State) (regs : Nat → Nat)
    (hne : P.TIMERUS_USEC_CFG ≠ P.TIMERUS_CNTR_1US)
    (hold : s.usec_offset < 2 ^ 32) :
    ((tegra_timer_resume P (timer_advance regs (tegra_timer_suspend P s).2)).usec_offset : Int)
      = ((s.usec_offset : Int) + (s.timer_regs P.TIMERUS_CNTR_1US : Int)
          - (regs P.TIMERUS_CNTR_1US : Int)) % 2 ^ 32 ∧
    (regs P.TIMERUS_CNTR_1US = s.timer_regs P.TIMERUS_CNTR_1US →
      (tegra_timer_resume P (timer_advance regs (tegra_timer_suspend P s).2)).usec_offset
        = s.usec_offset) := by
  have hval : (tegra_timer_resume P (timer_advance regs (tegra_timer_suspend P s).2)).usec_offset
      = int_to_u32 ((((s.usec_offset + s.timer_regs P.TIMERUS_CNTR_1US) % U32_MOD : Nat) : Int)
          - (regs P.TIMERUS_CNTR_1US : Int)) := by
    simp [tegra_timer_resume, tegra_timer_suspend, timer_advance, timer_readl, timer_writel,
      Ne.symm hne]
  rw [hval]
  simp only [int_to_u32, U32_MOD]
  constructor
  · omega
  · intro hsame
    omega

/-- Witness for C5: the accumulator holds 5, the counter reads `2^32 - 1` at
suspend (the addition wraps) and 7 at resume. -/
theorem suspend_resume_offset_witness :
    ((tegra_timer_resume tegra3 (timer_advance (timer_block tegra3 7 0)
        (tegra_timer_suspend tegra3
          { boot with timer_regs := timer_block tegra3 4294967295 3, usec_offset := 5 }).2)
      ).usec_offset : Int)
      = (((5 : Nat) : Int) + ((timer_block tegra3 4294967295 3 tegra3.TIMERUS_CNTR_1US : Nat) : Int)
          - ((timer_block tegra3 7 0 tegra3.TIMERUS_CNTR_1US : Nat) : Int)) % 2 ^ 32 ∧
    (timer_block tegra3 7 0 tegra3.TIMERUS_CNTR_1US
        = timer_block tegra3 4294967295 3 tegra3.TIMERUS_CNTR_1US →
      (tegra_timer_resume tegra3 (timer_advance (timer_block tegra3 7 0)
        (tegra_timer_suspend tegra3
          { boot with timer_regs := timer_block tegra3 4294967295 3, usec_offset := 5 }).2)
      ).usec_offset = 5) :=
  suspend_resume_offset tegra3
    { boot with timer_regs := timer_block tegra3 4294967295 3, usec_offset := 5 }
    (timer_block tegra3 7 0) (by decide) (by decide)

/-! ## The local timer context -/

theorem and_or_ne_zero_left (a b c : Nat) (h : a &&& b ≠ 0) : a &&& (b ||| c) ≠ 0 := by
  obtain ⟨i, hi⟩ := Nat.ne_zero_implies_bit_true h
  intro h0
  have hbit : (a &&& (b ||| c)).testBit i = true := by
    simp only [Nat.testBit_and, Nat.testBit_or, Bool.and_eq_true, Bool.or_eq_true] at hi ⊢
    exact ⟨hi.1, Or.inl hi.2⟩
  rw [h0, Nat.zero_testBit] at hbit
  exact Bool.noConfusion hbit

theorem twd_suspend_context (P : Platform) (context : tegra_twd_context) (s : State) :
    (tegra_twd_suspend P context s).1
      = { twd_ctrl := s.twd_regs P.TWD_TIMER_CONTROL
          twd_load :=
            if s.twd_regs P.TWD_TIMER_LOAD = 0 ∧
                s.twd_regs P.TWD_TIMER_CONTROL &&& P.TWD_TIMER_CONTROL_PERIODIC ≠ 0 ∧
                s.twd_regs P.TWD_TIMER_CONTROL &&&
                  (P.TWD_TIMER_CONTROL_ENABLE ||| P.TWD_TIMER_CONTROL_IT_ENABLE) ≠ 0
            then 1 else s.twd_regs P.TWD_TIMER_LOAD
          twd_cnt := context.twd_cnt } := by
  simp only [tegra_twd_suspend, twd_readl]
  split <;> rfl

theorem twd_suspend_regs (P : Platform) (context : tegra_twd_context) (s : State) :
    (tegra_twd_suspend P context s).2.twd_regs
      = fun r => if r = P.TWD_TIMER_CONTROL then 0 else s.twd_regs r := by
  simp only [tegra_twd_suspend, twd_readl, twd_writel]
  split <;> rfl

/-- C6: when the control and load registers of the local timer form a valid
configuration (the load is not zero whenever the periodic bit of the control
value is set), `tegra_twd_suspend` followed by `tegra_twd_resume` on the
context it filled does not stop in `BUG_ON` and leaves the control and the
load register holding the values they held before the suspend. -/
theorem twd_suspend_resume_roundtrip (P : Platform) (s : State) (context : tegra_twd_context)
    (hne : P.TWD_TIMER_LOAD ≠ P.TWD_TIMER_CONTROL)
    (hvalid : s.twd_regs P.TWD_TIMER_CONTROL &&& P.TWD_TIMER_CONTROL_PERIODIC ≠ 0 →
      s.twd_regs P.TWD_TIMER_LOAD ≠ 0) :
    ∃ s1 : State,
      tegra_twd_resume P (tegra_twd_suspend P context s).1 (tegra_twd_suspend P context s).2
        = Except.ok s1 ∧
      s1.twd_regs P.TWD_TIMER_CONTROL = s.twd_regs P.TWD_TIMER_CONTROL ∧
      s1.twd_regs P.TWD_TIMER_LOAD = s.twd_regs P.TWD_TIMER_LOAD := by
  have hcond : ¬ (s.twd_regs P.TWD_TIMER_LOAD = 0 ∧
      s.twd_regs P.TWD_TIMER_CONTROL &&& P.TWD_TIMER_CONTROL_PERIODIC ≠ 0 ∧
      s.twd_regs P.TWD_TIMER_CONTROL &&&
        (P.TWD_TIMER_CONTROL_ENABLE ||| P.TWD_TIMER_CONTROL_IT_ENABLE) ≠ 0) :=
    fun h => hvalid h.2.1 h.1
  have hctx := twd_suspend_context P context s
  rw [if_neg hcond] at hctx
  refine ⟨twd_writel (s.twd_regs P.TWD_TIMER_CONTROL) P.TWD_TIMER_CONTROL
    (twd_writel (s.twd_regs P.TWD_TIMER_LOAD) P.TWD_TIMER_LOAD
      (tegra_twd_suspend P context s).2), ?_, ?_, ?_⟩
  · rw [hctx]
    simp only [tegra_twd_resume]
    rw [if_neg hcond]
  · simp [twd_writel]
  · simp [twd_writel, hne]

/-- Witness for C6: a periodic, enabled local timer with load 1000. -/
theorem twd_suspend_resume_roundtrip_witness :
    ∃ s1 : State,
      tegra_twd_resume tegra3
        (tegra_twd_suspend tegra3 ⟨0, 0, 0⟩ { boot with twd_regs := twd_block tegra3 7 1000 }).1
        (tegra_twd_suspend tegra3 ⟨0, 0, 0⟩ { boot with twd_regs := twd_block tegra3 7 1000 }).2
        = Except.ok s1 ∧
      s1.twd_regs tegra3.TWD_TIMER_CONTROL = twd_block tegra3 7 1000 tegra3.TWD_TIMER_CONTROL ∧
      s1.twd_regs tegra3.TWD_TIMER_LOAD = twd_block tegra3 7 1000 tegra3.TWD_TIMER_LOAD :=
  twd_suspend_resume_roundtrip tegra3 { boot with twd_regs := twd_block tegra3 7 1000 } ⟨0, 0, 0⟩
    (by decide) (by decide)

/-- C7: when the stored load is 0 and the stored control value has the
enable, the periodic and the interrupt-enable bit set, `tegra_twd_resume`
stops in `BUG_ON`, and the machine state at the stop is the state at entry:
no register was written. -/
theorem twd_resume_zero_load_is_fatal (P : Platform) (s : State) (context : tegra_twd_context)
    (hload : context.twd_load = 0)
    (hen : context.twd_ctrl &&& P.TWD_TIMER_CONTROL_ENABLE ≠ 0)
    (hper : context.twd_ctrl &&& P.TWD_TIMER_CONTROL_PERIODIC ≠ 0)
    (_hit : context.twd_ctrl &&& P.TWD_TIMER_CONTROL_IT_ENABLE ≠ 0) :
    tegra_twd_resume P context s = Except.error s := by
  have hany := and_or_ne_zero_left context.twd_ctrl P.TWD_TIMER_CONTROL_ENABLE
    P.TWD_TIMER_CONTROL_IT_ENABLE hen
  simp only [tegra_twd_resume]
  rw [if_pos ⟨hload, hper, hany⟩]

/-- Witness for C7: control 7 (enable, periodic, interrupt enable) with load 0. -/
theorem twd_resume_zero_load_is_fatal_witness :
    tegra_twd_resume tegra3 ⟨7, 0, 0⟩ boot = Except.error boot :=
  twd_resume_zero_load_is_fatal tegra3 boot ⟨7, 0, 0⟩ rfl (by decide) (by decide) (by decide)

/-- C8: with `c` the control and `l` the load value of the local timer,
`tegra_twd_suspend` stores `c` as the control value of the context; it stores
1 as the load value when `l = 0` and `c` has the periodic, the enable and
the interrupt-enable bit set, and `l` itself when `l ≠ 0`; the counter field
of the context keeps its value. -/
theorem twd_suspend_snapshot (P : Platform) (s : State) (context : tegra_twd_context) :
    (tegra_twd_suspend P context s).1.twd_ctrl = s.twd_regs P.TWD_TIMER_CONTROL ∧
    (s.twd_regs P.TWD_TIMER_LOAD = 0 →
      s.twd_regs P.TWD_TIMER_CONTROL &&& P.TWD_TIMER_CONTROL_PERIODIC ≠ 0 →
      s.twd_regs P.TWD_TIMER_CONTROL &&& P.TWD_TIMER_CONTROL_ENABLE ≠ 0 →
      s.twd_regs P.TWD_TIMER_CONTROL &&& P.TWD_TIMER_CONTROL_IT_ENABLE ≠ 0 →
      (tegra_twd_suspend P context s).1.twd_load = 1) ∧
    (s.twd_regs P.TWD_TIMER_LOAD ≠ 0 →
      (tegra_twd_suspend P context s).1.twd_load = s.twd_regs P.TWD_TIMER_LOAD) ∧
    (tegra_twd_suspend P context s).1.twd_cnt = context.twd_cnt := by
  rw [twd_suspend_context]
  refine ⟨rfl, ?_, ?_, rfl⟩
  · intro hl hper hen _
    exact if_pos ⟨hl, hper, and_or_ne_zero_left _ _ _ hen⟩
  · intro hl
    exact if_neg (fun h => hl h.1)

/-- Witness for C8: control 7 (enable, periodic, interrupt enable) with
load 0 is stored with load 1. -/
theorem twd_suspend_snapshot_witness :
    (tegra_twd_suspend tegra3 ⟨0, 0, 9⟩ { boot with twd_regs := twd_block tegra3 7 0 }).1.twd_load
      = 1 :=
  (twd_suspend_snapshot tegra3 { boot with twd_regs := twd_block tegra3 7 0 } ⟨0, 0, 9⟩).2.1
    (by decide) (by decide) (by decide) (by decide)

/-! ## The interrupt handler -/

theorem interrupt_reaches_handler_intro (P : Platform) (s : State) :
    interrupt_reaches_handler P s
      { timer_writel (1 <<< 30) (s.system_timer + P.TIMER_PCR) s with
        log := (timer_writel (1 <<< 30) (s.system_timer + P.TIMER_PCR) s).log
          ++ [Event.event_handler] } := by
  refine ⟨?_, ?_, ?_, rfl, rfl, rfl, rfl, rfl, rfl, rfl, rfl, rfl⟩
  · simp [timer_writel]
  · simp [timer_writel]
  · intro reg hreg
    simp [timer_writel, hreg]

/-- C9, as stated, fails: when the registered callback reprograms the event
timer, two invocations of `tegra_timer_interrupt` in a row do change a
register other than PCR.  From a state in which PTV holds 2147483652, with a
callback that calls `tegra_timer_set_next_event(1000)`, PTV holds 2147484647
afterwards. -/
theorem timer_interrupt_callback_changes_ptv :
    boot.system_timer + tegra3.TIMER_PTV ≠ boot.system_timer + tegra3.TIMER_PCR ∧
    (tegra_timer_set_next_event tegra3 5 boot).2.timer_regs
      (boot.system_timer + tegra3.TIMER_PTV) = 2147483652 ∧
    (tegra_timer_interrupt tegra3 (reprogramming_handler tegra3 1000)
      (tegra_timer_interrupt tegra3 (reprogramming_handler tegra3 1000)
        (tegra_timer_set_next_event tegra3 5 boot).2).2).2.timer_regs
      (boot.system_timer + tegra3.TIMER_PTV) = 2147484647 ∧
    (tegra_timer_interrupt tegra3 (reprogramming_handler tegra3 1000)
      (tegra_timer_interrupt tegra3 (reprogramming_handler tegra3 1000)
        (tegra_timer_set_next_event tegra3 5 boot).2).2).2.timer_regs
      (boot.system_timer + tegra3.TIMER_PTV)
      ≠ (tegra_timer_set_next_event tegra3 5 boot).2.timer_regs
          (boot.system_timer + tegra3.TIMER_PTV) := by
  refine ⟨by decide, by decide, by decide, by decide⟩

/-- C9, amended: for every callback, one call of `tegra_timer_interrupt`
returns `IRQ_HANDLED` and performs exactly one write of `1 << 30` to the PCR
register of the system timer followed by exactly one invocation of the
callback, which receives a state that differs from the entry state in
nothing but PCR and the log; two calls in a row do this twice, the second on
the state the first callback left.  Apart from what the callback itself
does, no other register and no variable of the driver changes: with a
callback that leaves the machine state alone, two calls add exactly the two
writes and the two invocations to the log and change nothing but PCR. -/
theorem timer_interrupt_clears_then_calls (P : Platform) (handler : State → State)
    (s : State) :
    (tegra_timer_interrupt P handler s).1 = irqreturn_t.IRQ_HANDLED ∧
    (∃ s1 : State, interrupt_reaches_handler P s s1 ∧
      (tegra_timer_interrupt P handler s).2 = handler s1) ∧
    (∃ s1 s2 : State, interrupt_reaches_handler P s s1 ∧
      interrupt_reaches_handler P (handler s1) s2 ∧
      tegra_timer_interrupt P handler (tegra_timer_interrupt P handler s).2
        = (irqreturn_t.IRQ_HANDLED, handler s2)) ∧
    ((∀ x : State, handler x = x) →
      (tegra_timer_interrupt P handler (tegra_timer_interrupt P handler s).2).2.log
        = s.log ++ [Event.timer_write (1 <<< 30) (s.system_timer + P.TIMER_PCR),
            Event.event_handler,
            Event.timer_write (1 <<< 30) (s.system_timer + P.TIMER_PCR),
            Event.event_handler] ∧
      (∀ reg, reg ≠ s.system_timer + P.TIMER_PCR →
        (tegra_timer_interrupt P handler (tegra_timer_interrupt P handler s).2).2.timer_regs reg
          = s.timer_regs reg) ∧
      (tegra_timer_interrupt P handler (tegra_timer_interrupt P handler s).2).2.rtc_regs
        = s.rtc_regs ∧
      (tegra_timer_interrupt P handler (tegra_timer_interrupt P handler s).2).2.twd_regs
        = s.twd_regs ∧
      (tegra_timer_interrupt P handler (tegra_timer_interrupt P handler s).2).2.persistent_ts
        = s.persistent_ts ∧
      (tegra_timer_interrupt P handler (tegra_timer_interrupt P handler s).2).2.persistent_ms
        = s.persistent_ms ∧
      (tegra_timer_interrupt P handler
          (tegra_timer_interrupt P handler s).2).2.last_persistent_ms
        = s.last_persistent_ms ∧
      (tegra_timer_interrupt P handler (tegra_timer_interrupt P handler s).2).2.usec_config
        = s.usec_config ∧
      (tegra_timer_interrupt P handler (tegra_timer_interrupt P handler s).2).2.usec_offset
        = s.usec_offset ∧
      (tegra_timer_interrupt P handler (tegra_timer_interrupt P handler s).2).2.usec_suspended
        = s.usec_suspended ∧
      (tegra_timer_interrupt P handler (tegra_timer_interrupt P handler s).2).2.system_timer
        = s.system_timer) := by
  refine ⟨rfl, ⟨_, interrupt_reaches_handler_intro P s, rfl⟩,
    ⟨_, _, interrupt_reaches_handler_intro P s, interrupt_reaches_handler_intro P _, rfl⟩, ?_⟩
  intro hid
  refine ⟨?_, ?_, ?_, ?_, ?_, ?_, ?_, ?_, ?_, ?_, ?_⟩
  · simp [tegra_timer_interrupt, timer_writel, hid]
  · intro reg hreg
    simp [tegra_timer_interrupt, timer_writel, hid, hreg]
  all_goals simp [tegra_timer_interrupt, timer_writel, hid]

/-- Witness for the amended C9: a callback that leaves the machine state
alone, from the boot state. -/
theorem timer_interrupt_clears_then_calls_witness :
    (tegra_timer_interrupt tegra3 (fun x => x)
      (tegra_timer_interrupt tegra3 (fun x => x) boot).2).2.log
      = boot.log ++ [Event.timer_write (1 <<< 30) (boot.system_timer + tegra3.TIMER_PCR),
          Event.event_handler,
          Event.timer_write (1 <<< 30) (boot.system_timer + tegra3.TIMER_PCR),
          Event.event_handler] :=
  ((timer_interrupt_clears_then_calls tegra3 (fun x => x) boot).2.2.2 (fun _ => rfl)).1

/-! ## The scheduling clock -/

/-- C10, as stated, fails: when three successive calls of
`tegra_read_sched_clock` return 0, 4294967290 and 10, it is not the case that
the 32-bit modular differences of consecutive samples are 6 and 16. -/
theorem sched_clock_deltas_not_6_16 :
    ¬ (sched_clock_delta
          (sched_clock_samples tegra3 (timer_block tegra3 0 0)
            (timer_block tegra3 4294967290 0) (timer_block tegra3 10 0) boot).1
          (sched_clock_samples tegra3 (timer_block tegra3 0 0)
            (timer_block tegra3 4294967290 0) (timer_block tegra3 10 0) boot).2.1 = 6 ∧
        sched_clock_delta
          (sched_clock_samples tegra3 (timer_block tegra3 0 0)
            (timer_block tegra3 4294967290 0) (timer_block tegra3 10 0) boot).2.1
          (sched_clock_samples tegra3 (timer_block tegra3 0 0)
            (timer_block tegra3 4294967290 0) (timer_block tegra3 10 0) boot).2.2 = 16) := by
  decide

/-- C10, amended: when three successive calls of `tegra_read_sched_clock`
return 0, 4294967290 and 10, the samples are exactly those raw values and the
32-bit modular differences of consecutive samples are 4294967290 for the
first interval and 16 for the second, across the wrap. -/
theorem sched_clock_deltas_across_wrap (P : Platform) (s : State) (regs1 regs2 regs3 : Nat → Nat)
    (h1 : regs1 P.TIMERUS_CNTR_1US = 0)
    (h2 : regs2 P.TIMERUS_CNTR_1US = 4294967290)
    (h3 : regs3 P.TIMERUS_CNTR_1US = 10) :
    sched_clock_samples P regs1 regs2 regs3 s = (0, 4294967290, 10) ∧
    sched_clock_delta (sched_clock_samples P regs1 regs2 regs3 s).1
      (sched_clock_samples P regs1 regs2 regs3 s).2.1 = 4294967290 ∧
    sched_clock_delta (sched_clock_samples P regs1 regs2 regs3 s).2.1
      (sched_clock_samples P regs1 regs2 regs3 s).2.2 = 16 := by
  have hs : sched_clock_samples P regs1 regs2 regs3 s = (0, 4294967290, 10) := by
    simp [sched_clock_samples, tegra_read_sched_clock, timer_readl, timer_advance, h1, h2, h3]
  rw [hs]
  refine ⟨rfl, ?_, ?_⟩ <;> decide

/-- Witness for the amended C10 on the Tegra 3 layout from the boot state. -/
theorem sched_clock_deltas_across_wrap_witness :
    sched_clock_samples tegra3 (timer_block tegra3 0 0) (timer_block tegra3 4294967290 0)
      (timer_block tegra3 10 0) boot = (0, 4294967290, 10) ∧
    sched_clock_delta
      (sched_clock_samples tegra3 (timer_block tegra3 0 0) (timer_block tegra3 4294967290 0)
        (timer_block tegra3 10 0) boot).1
      (sched_clock_samples tegra3 (timer_block tegra3 0 0) (timer_block tegra3 4294967290 0)
        (timer_block tegra3 10 0) boot).2.1 = 4294967290 ∧
    sched_clock_delta
      (sched_clock_samples tegra3 (timer_block tegra3 0 0) (timer_block tegra3 4294967290 0)
        (timer_block tegra3 10 0) boot).2.1
      (sched_clock_samples tegra3 (timer_block tegra3 0 0) (timer_block tegra3 4294967290 0)
        (timer_block tegra3 10 0) boot).2.2 = 16 :=
  sched_clock_deltas_across_wrap tegra3 boot (timer_block tegra3 0 0)
    (timer_block tegra3 4294967290 0) (timer_block tegra3 10 0) rfl rfl rfl

/-! ## Reading the RTC -/

/-- C11: for every pair of 32-bit values `sec` of the shadow seconds register
and `ms` of the milliseconds register, `tegra_rtc_read_ms` returns exactly
`sec * 1000 + ms`, a value below `2^64`, and its two register reads are the
milliseconds register first and the shadow seconds register second. -/
theorem rtc_read_ms_value_and_order (P : Platform) (s : State)
    (hs : s.rtc_regs P.RTC_SHADOW_SECONDS < 2 ^ 32)
    (hm : s.rtc_regs P.RTC_MILLISECONDS < 2 ^ 32) :
    (tegra_rtc_read_ms P s).1
      = s.rtc_regs P.RTC_SHADOW_SECONDS * 1000 + s.rtc_regs P.RTC_MILLISECONDS ∧
    (tegra_rtc_read_ms P s).1 < 2 ^ 64 ∧
    (tegra_rtc_read_ms P s).2.log
      = s.log ++ [Event.rtc_read P.RTC_MILLISECONDS, Event.rtc_read P.RTC_SHADOW_SECONDS] := by
  have hval : (tegra_rtc_read_ms P s).1
      = s.rtc_regs P.RTC_SHADOW_SECONDS * 1000 + s.rtc_regs P.RTC_MILLISECONDS := by
    simp only [tegra_rtc_read_ms, rtc_readl, U64_MOD, MSEC_PER_SEC]
    omega
  refine ⟨hval, ?_, ?_⟩
  · rw [hval]
    omega
  · rw [rtc_read_ms_state]

/-- Witness for C11: the largest register values, `2^32 - 1` seconds and
`2^32 - 1` milliseconds. -/
theorem rtc_read_ms_value_and_order_witness :
    (tegra_rtc_read_ms tegra3
        (rtc_advance (rtc_block tegra3 4294967295 4294967295) boot)).1
      = (rtc_advance (rtc_block tegra3 4294967295 4294967295) boot).rtc_regs
            tegra3.RTC_SHADOW_SECONDS * 1000
          + (rtc_advance (rtc_block tegra3 4294967295 4294967295) boot).rtc_regs
            tegra3.RTC_MILLISECONDS ∧
    (tegra_rtc_read_ms tegra3
        (rtc_advance (rtc_block tegra3 4294967295 4294967295) boot)).1 < 2 ^ 64 ∧
    (tegra_rtc_read_ms tegra3
        (rtc_advance (rtc_block tegra3 4294967295 4294967295) boot)).2.log
      = (rtc_advance (rtc_block tegra3 4294967295 4294967295) boot).log
          ++ [Event.rtc_read tegra3.RTC_MILLISECONDS,
              Event.rtc_read tegra3.RTC_SHADOW_SECONDS] :=
  rtc_read_ms_value_and_order tegra3
    (rtc_advance (rtc_block tegra3 4294967295 4294967295) boot) (by decide) (by decide)

/-! ## Restoring and disabling the local timer -/

theorem and_or_ne_zero_cases (a b c : Nat) (h : a &&& (b ||| c) ≠ 0) :
    a &&& b ≠ 0 ∨ a &&& c ≠ 0 := by
  by_contra hboth
  have hb : a &&& b = 0 := by
    by_contra hb
    exact hboth (Or.inl hb)
  have hc : a &&& c = 0 := by
    by_contra hc
    exact hboth (Or.inr hc)
  apply h
  rw [Nat.and_or_distrib_left, hb, hc]
  rfl

/-- C12, as stated, fails: a stored context with load 0 and a control value
with the periodic and the enable bit set but the interrupt-enable bit clear
is not in the condition "load 0 with the periodic, enable and
interrupt-enable bits set", and `tegra_twd_resume` still stops in `BUG_ON`
without writing a register. -/
theorem twd_resume_aborts_without_it_enable :
    ¬ ((⟨3, 0, 0⟩ : tegra_twd_context).twd_load = 0 ∧
        (⟨3, 0, 0⟩ : tegra_twd_context).twd_ctrl &&& tegra3.TWD_TIMER_CONTROL_PERIODIC ≠ 0 ∧
        (⟨3, 0, 0⟩ : tegra_twd_context).twd_ctrl &&& tegra3.TWD_TIMER_CONTROL_ENABLE ≠ 0 ∧
        (⟨3, 0, 0⟩ : tegra_twd_context).twd_ctrl &&& tegra3.TWD_TIMER_CONTROL_IT_ENABLE ≠ 0) ∧
    tegra_twd_resume tegra3 ⟨3, 0, 0⟩ boot = Except.error boot := by
  constructor
  · decide
  · rfl

/-- C12, amended: for every stored context that is not in the condition
checked by `BUG_ON` (load 0 together with a control value having the
periodic bit and at least one of the enable and interrupt-enable bits set),
`tegra_twd_resume` does not stop and performs exactly two register writes in
this order: the stored load value to the load register, then the stored
control value to the control register. -/
theorem twd_resume_restores_load_then_control (P : Platform) (s : State)
    (context : tegra_twd_context)
    (hok : ¬ (context.twd_load = 0 ∧
      context.twd_ctrl &&& P.TWD_TIMER_CONTROL_PERIODIC ≠ 0 ∧
      (context.twd_ctrl &&& P.TWD_TIMER_CONTROL_ENABLE ≠ 0 ∨
        context.twd_ctrl &&& P.TWD_TIMER_CONTROL_IT_ENABLE ≠ 0))) :
    ∃ s1 : State,
      tegra_twd_resume P context s = Except.ok s1 ∧
      s1.log = s.log ++ [Event.twd_write context.twd_load P.TWD_TIMER_LOAD,
        Event.twd_write context.twd_ctrl P.TWD_TIMER_CONTROL] ∧
      s1.twd_regs P.TWD_TIMER_CONTROL = context.twd_ctrl ∧
      (P.TWD_TIMER_LOAD ≠ P.TWD_TIMER_CONTROL →
        s1.twd_regs P.TWD_TIMER_LOAD = context.twd_load) := by
  have hcond : ¬ (context.twd_load = 0 ∧
      context.twd_ctrl &&& P.TWD_TIMER_CONTROL_PERIODIC ≠ 0 ∧
      context.twd_ctrl &&&
        (P.TWD_TIMER_CONTROL_ENABLE ||| P.TWD_TIMER_CONTROL_IT_ENABLE) ≠ 0) :=
    fun h => hok ⟨h.1, h.2.1, and_or_ne_zero_cases _ _ _ h.2.2⟩
  refine ⟨twd_writel context.twd_ctrl P.TWD_TIMER_CONTROL
    (twd_writel context.twd_load P.TWD_TIMER_LOAD s), ?_, ?_, ?_, ?_⟩
  · simp only [tegra_twd_resume]
    rw [if_neg hcond]
  · simp [twd_writel]
  · simp [twd_writel]
  · intro hne
    simp [twd_writel, hne]

/-- Witness for the amended C12: a one-shot context (control 5: enable and
interrupt enable, not periodic) with load 0 is restored. -/
theorem twd_resume_restores_load_then_control_witness :
    ∃ s1 : State,
      tegra_twd_resume tegra3 ⟨5, 0, 0⟩ boot = Except.ok s1 ∧
      s1.log = boot.log ++ [Event.twd_write (⟨5, 0, 0⟩ : tegra_twd_context).twd_load
          tegra3.TWD_TIMER_LOAD,
        Event.twd_write (⟨5, 0, 0⟩ : tegra_twd_context).twd_ctrl tegra3.TWD_TIMER_CONTROL] ∧
      s1.twd_regs tegra3.TWD_TIMER_CONTROL = (⟨5, 0, 0⟩ : tegra_twd_context).twd_ctrl ∧
      (tegra3.TWD_TIMER_LOAD ≠ tegra3.TWD_TIMER_CONTROL →
        s1.twd_regs tegra3.TWD_TIMER_LOAD = (⟨5, 0, 0⟩ : tegra_twd_context).twd_load) :=
  twd_resume_restores_load_then_control tegra3 boot ⟨5, 0, 0⟩ (by decide)

/-- C13: for every state of the local timer, every context passed in and
every machine state at resume time, `tegra_twd_resume` on the context filled
by `tegra_twd_suspend` does not stop in `BUG_ON`: it completes and restores
the stored load and control values. -/
theorem twd_suspend_context_never_fatal (P : Platform) (s s2 : State)
    (context : tegra_twd_context) :
    tegra_twd_resume P (tegra_twd_suspend P context s).1 (tegra_twd_suspend P context s).2
      = Except.ok (twd_writel (tegra_twd_suspend P context s).1.twd_ctrl P.TWD_TIMER_CONTROL
          (twd_writel (tegra_twd_suspend P context s).1.twd_load P.TWD_TIMER_LOAD
            (tegra_twd_suspend P context s).2)) ∧
    tegra_twd_resume P (tegra_twd_suspend P context s).1 s2
      = Except.ok (twd_writel (tegra_twd_suspend P context s).1.twd_ctrl P.TWD_TIMER_CONTROL
          (twd_writel (tegra_twd_suspend P context s).1.twd_load P.TWD_TIMER_LOAD s2)) := by
  have hcond : ¬ ((tegra_twd_suspend P context s).1.twd_load = 0 ∧
      (tegra_twd_suspend P context s).1.twd_ctrl &&& P.TWD_TIMER_CONTROL_PERIODIC ≠ 0 ∧
      (tegra_twd_suspend P context s).1.twd_ctrl &&&
        (P.TWD_TIMER_CONTROL_ENABLE ||| P.TWD_TIMER_CONTROL_IT_ENABLE) ≠ 0) := by
    rw [twd_suspend_context]
    intro h
    by_cases hc : s.twd_regs P.TWD_TIMER_LOAD = 0 ∧
        s.twd_regs P.TWD_TIMER_CONTROL &&& P.TWD_TIMER_CONTROL_PERIODIC ≠ 0 ∧
        s.twd_regs P.TWD_TIMER_CONTROL &&&
          (P.TWD_TIMER_CONTROL_ENABLE ||| P.TWD_TIMER_CONTROL_IT_ENABLE) ≠ 0
    · have h1 := h.1
      simp only [if_pos hc] at h1
      exact absurd h1 (by decide)
    · have h1 := h.1
      simp only [if_neg hc] at h1
      exact hc ⟨h1, h.2.1, h.2.2⟩
  constructor
  · simp only [tegra_twd_resume]
    rw [if_neg hcond]
  · simp only [tegra_twd_resume]
    rw [if_neg hcond]

/-- C14: for every prior state of the local timer, after `tegra_twd_suspend`
the control register holds 0 and the load register holds what it held
before, whether the zero-load correction was applied to the context or
not. -/
theorem twd_suspend_disables_timer (P : Platform) (s : State) (context : tegra_twd_context)
    (hne : P.TWD_TIMER_LOAD ≠ P.TWD_TIMER_CONTROL) :
    (tegra_twd_suspend P context s).2.twd_regs P.TWD_TIMER_CONTROL = 0 ∧
    (tegra_twd_suspend P context s).2.twd_regs P.TWD_TIMER_LOAD
      = s.twd_regs P.TWD_TIMER_LOAD := by
  rw [twd_suspend_regs]
  simp [hne]

/-- Witness for C14: control 7 with load 0, the case in which the snapshot is
corrected; the load register itself still holds 0. -/
theorem twd_suspend_disables_timer_witness :
    (tegra_twd_suspend tegra3 ⟨0, 0, 0⟩
      { boot with twd_regs := twd_block tegra3 7 0 }).2.twd_regs tegra3.TWD_TIMER_CONTROL = 0 ∧
    (tegra_twd_suspend tegra3 ⟨0, 0, 0⟩
      { boot with twd_regs := twd_block tegra3 7 0 }).2.twd_regs tegra3.TWD_TIMER_LOAD
      = ({ boot with twd_regs := twd_block tegra3 7 0 } : State).twd_regs tegra3.TWD_TIMER_LOAD :=
  twd_suspend_disables_timer tegra3 { boot with twd_regs := twd_block tegra3 7 0 } ⟨0, 0, 0⟩
    (by decide)

/-! ## The configuration register across suspend -/

/-- C15: `tegra_timer_suspend` returns 0 and sets the suspended flag; for
every value of the configuration register at that time and every content the
timer block takes afterwards, the following `tegra_timer_resume` leaves the
configuration register holding the value it had at suspend and clears the
suspended flag. -/
theorem suspend_resume_restores_config (P : Platform) (s : State) (regs : Nat → Nat) :
    (tegra_timer_suspend P s).1 = 0 ∧
    (tegra_timer_suspend P s).2.usec_suspended = true ∧
    (tegra_timer_resume P (timer_advance regs (tegra_timer_suspend P s).2)).timer_regs
      P.TIMERUS_USEC_CFG = s.timer_regs P.TIMERUS_USEC_CFG ∧
    (tegra_timer_resume P (timer_advance regs (tegra_timer_suspend P s).2)).usec_suspended
      = false := by
  refine ⟨rfl, rfl, ?_, rfl⟩
  simp [tegra_timer_resume, tegra_timer_suspend, timer_advance, timer_readl, timer_writel]

/-! ## The accumulated timestamp -/

theorem read_persistent_clock_adds (P : Platform) (s : State) :
    (read_persistent_clock P s).2.persistent_ts
      = timespec_add_ns s.persistent_ts (persistent_clock_added_ns P s) := by
  simp [read_persistent_clock, persistent_clock_added_ns, persistent_clock_delta,
    tegra_rtc_read_ms, rtc_readl]

theorem persistent_clock_run_value (P : Platform) :
    ∀ (rest : List (Nat → Nat)) (s : State) (r0 : Nat → Nat),
      s.persistent_ms = rtc_ms P r0 →
      0 ≤ s.persistent_ts.tv_nsec → s.persistent_ts.tv_nsec < 1000000000 →
      timespec_to_ns s.persistent_ts = (rtc_ms P r0 : Int) * 1000000 →
      (∀ r ∈ rest, r P.RTC_SHADOW_SECONDS < 2 ^ 32 ∧ r P.RTC_MILLISECONDS < 2 ^ 32) →
      List.Chain (fun a b => rtc_ms P a ≤ rtc_ms P b) r0 rest →
      0 ≤ (persistent_clock_run P rest s).persistent_ts.tv_nsec ∧
      (persistent_clock_run P rest s).persistent_ts.tv_nsec < 1000000000 ∧
      timespec_to_ns (persistent_clock_run P rest s).persistent_ts
        = (rtc_ms P (rest.getLast?.getD r0) : Int) * 1000000 := by
  intro rest
  induction rest with
  | nil =>
    intro s r0 _ h0 h1 hv _ _
    exact ⟨h0, h1, hv⟩
  | cons r rest ih =>
    intro s r0 hms _ _ hv hu32 hchain
    have hr := hu32 r (List.mem_cons_self r rest)
    have hle : rtc_ms P r0 ≤ rtc_ms P r := (List.chain_cons.mp hchain).1
    have hts := read_persistent_clock_added P s r hr.1 hr.2 (by rw [hms]; exact hle)
    have hnorm := read_persistent_clock_normalised P (rtc_advance r s)
    have hval : timespec_to_ns (read_persistent_clock P (rtc_advance r s)).2.persistent_ts
        = (rtc_ms P r : Int) * 1000000 := by
      rw [hts, timespec_add_ns_value, hv, hms]
      push_cast [Nat.cast_sub hle]
      ring
    have hnext := ih (read_persistent_clock P (rtc_advance r s)).2 r
      (read_persistent_clock_ms P s r hr.1 hr.2) hnorm.1 hnorm.2 hval
      (fun x hx => hu32 x (List.mem_cons_of_mem r hx)) (List.chain_cons.mp hchain).2
    have hlast : (r :: rest).getLast?.getD r0 = rest.getLast?.getD r := by
      rw [List.getLast?_cons]
      rfl
    rw [hlast]
    exact hnext

/-- C16: starting from a state whose accumulated timestamp and stored
millisecond count are zero, as at boot, after any sequence of
`read_persistent_clock` calls on 32-bit RTC readings whose combined
millisecond value never decreases, the accumulated timestamp has
`0 ≤ tv_nsec < 1000000000` and its value in nanoseconds is the combined
millisecond value of the most recent reading times 1,000,000; the first call
returns the full RTC value `m = seconds * 1000 + milliseconds` as the
timestamp `m / 1000` seconds and `(m % 1000) * 1000000` nanoseconds. -/
theorem persistent_clock_accumulates (P : Platform) (s : State) (readings : List (Nat → Nat))
    (hts : s.persistent_ts = { tv_sec := 0, tv_nsec := 0 })
    (hms : s.persistent_ms = 0)
    (hu32 : ∀ r ∈ readings, r P.RTC_SHADOW_SECONDS < 2 ^ 32 ∧ r P.RTC_MILLISECONDS < 2 ^ 32)
    (hmono : List.Chain' (fun a b => rtc_ms P a ≤ rtc_ms P b) readings) :
    0 ≤ (persistent_clock_run P readings s).persistent_ts.tv_nsec ∧
    (persistent_clock_run P readings s).persistent_ts.tv_nsec < 1000000000 ∧
    (∀ r, readings.getLast? = some r →
      timespec_to_ns (persistent_clock_run P readings s).persistent_ts
        = (rtc_ms P r : Int) * 1000000) ∧
    (∀ r, readings.head? = some r →
      (read_persistent_clock P (rtc_advance r s)).1
        = { tv_sec := ((rtc_ms P r / 1000 : Nat) : Int)
            tv_nsec := ((rtc_ms P r % 1000 * 1000000 : Nat) : Int) }) := by
  have hchain : List.Chain (fun a b => rtc_ms P a ≤ rtc_ms P b) (fun _ => 0) readings := by
    cases readings with
    | nil => exact List.Chain.nil
    | cons r rest => exact List.Chain.cons (by simp [rtc_ms]) hmono
  have hrun := persistent_clock_run_value P readings s (fun _ => 0)
    (by simp [hms, rtc_ms]) (by simp [hts]) (by simp [hts])
    (by simp [hts, timespec_to_ns, rtc_ms]) hu32 hchain
  refine ⟨hrun.1, hrun.2.1, ?_, ?_⟩
  · intro r hr
    have h := hrun.2.2
    rw [hr] at h
    exact h
  · intro r hr
    have hmem : r ∈ readings := List.mem_of_mem_head? hr
    have hb := hu32 r hmem
    have hadd := read_persistent_clock_added P s r hb.1 hb.2 (by rw [hms]; exact Nat.zero_le _)
    rw [read_persistent_clock_returns_ts, hadd, hts, hms]
    simp only [timespec_add_ns, NSEC_PER_SEC, Nat.sub_zero]
    congr 1 <;> omega

/-- Witness for C16: two readings from the boot state, 5.999 s and 7.001 s. -/
theorem persistent_clock_accumulates_witness :
    0 ≤ (persistent_clock_run tegra3
      [rtc_block tegra3 5 999, rtc_block tegra3 7 1] boot).persistent_ts.tv_nsec ∧
    (persistent_clock_run tegra3
      [rtc_block tegra3 5 999, rtc_block tegra3 7 1] boot).persistent_ts.tv_nsec
      < 1000000000 ∧
    (∀ r, [rtc_block tegra3 5 999, rtc_block tegra3 7 1].getLast? = some r →
      timespec_to_ns (persistent_clock_run tegra3
        [rtc_block tegra3 5 999, rtc_block tegra3 7 1] boot).persistent_ts
        = (rtc_ms tegra3 r : Int) * 1000000) ∧
    (∀ r, [rtc_block tegra3 5 999, rtc_block tegra3 7 1].head? = some r →
      (read_persistent_clock tegra3 (rtc_advance r boot)).1
        = { tv_sec := ((rtc_ms tegra3 r / 1000 : Nat) : Int)
            tv_nsec := ((rtc_ms tegra3 r % 1000 * 1000000 : Nat) : Int) }) :=
  persistent_clock_accumulates tegra3 boot [rtc_block tegra3 5 999, rtc_block tegra3 7 1]
    rfl rfl
    (by
      intro r hr
      simp only [List.mem_cons, List.mem_singleton, List.not_mem_nil, or_false] at hr
      rcases hr with rfl | rfl <;> decide)
    (by
      simp only [List.chain'_cons, List.chain'_singleton, and_true]
      decide)

/-- C17: for two consecutive calls of `read_persistent_clock` on 32-bit RTC
readings, the later combined millisecond value not smaller than the earlier
one, the `delta` of the second call is the true difference, at most
`(2^32 - 1) * 1001`; that bound times 1,000,000 is below `2^64`, so
`delta * NSEC_PER_MSEC` does not wrap and the amount handed to
`timespec_add_ns` is exactly the difference times 1,000,000. -/
theorem persistent_clock_product_exact (P : Platform) (s : State) (r0 r1 : Nat → Nat)
    (h0s : r0 P.RTC_SHADOW_SECONDS < 2 ^ 32) (h0m : r0 P.RTC_MILLISECONDS < 2 ^ 32)
    (h1s : r1 P.RTC_SHADOW_SECONDS < 2 ^ 32) (h1m : r1 P.RTC_MILLISECONDS < 2 ^ 32)
    (hle : rtc_ms P r0 ≤ rtc_ms P r1) :
    persistent_clock_delta P
        (rtc_advance r1 (read_persistent_clock P (rtc_advance r0 s)).2)
      = rtc_ms P r1 - rtc_ms P r0 ∧
    persistent_clock_delta P
        (rtc_advance r1 (read_persistent_clock P (rtc_advance r0 s)).2)
      ≤ (2 ^ 32 - 1) * 1001 ∧
    (2 ^ 32 - 1) * 1001 * 1000000 < 2 ^ 64 ∧
    persistent_clock_delta P
        (rtc_advance r1 (read_persistent_clock P (rtc_advance r0 s)).2) * NSEC_PER_MSEC
      < U64_MOD ∧
    persistent_clock_added_ns P
        (rtc_advance r1 (read_persistent_clock P (rtc_advance r0 s)).2)
      = (rtc_ms P r1 - rtc_ms P r0) * 1000000 ∧
    (read_persistent_clock P
        (rtc_advance r1 (read_persistent_clock P (rtc_advance r0 s)).2)).2.persistent_ts
      = timespec_add_ns (read_persistent_clock P (rtc_advance r0 s)).2.persistent_ts
          ((rtc_ms P r1 - rtc_ms P r0) * 1000000) := by
  have hprev := read_persistent_clock_ms P s r0 h0s h0m
  have hread := rtc_read_ms_exact P
    (rtc_advance r1 (read_persistent_clock P (rtc_advance r0 s)).2) h1s h1m
  have hb : rtc_ms P r1 ≤ (2 ^ 32 - 1) * 1001 := by
    simp only [rtc_ms]
    omega
  have hdelta : persistent_clock_delta P
      (rtc_advance r1 (read_persistent_clock P (rtc_advance r0 s)).2)
      = rtc_ms P r1 - rtc_ms P r0 := by
    have hpm : (rtc_advance r1 (read_persistent_clock P (rtc_advance r0 s)).2).persistent_ms
        = rtc_ms P r0 := hprev
    have hrr : (rtc_advance r1 (read_persistent_clock P (rtc_advance r0 s)).2).rtc_regs = r1 :=
      rfl
    unfold persistent_clock_delta
    rw [hread, hpm, hrr]
    unfold u64_sub
    omega
  have hns : persistent_clock_added_ns P
      (rtc_advance r1 (read_persistent_clock P (rtc_advance r0 s)).2)
      = (rtc_ms P r1 - rtc_ms P r0) * 1000000 := by
    unfold persistent_clock_added_ns
    rw [hdelta]
    simp only [NSEC_PER_MSEC, U64_MOD]
    omega
  refine ⟨hdelta, ?_, by norm_num, ?_, hns, ?_⟩
  · rw [hdelta]
    omega
  · rw [hdelta]
    simp only [NSEC_PER_MSEC, U64_MOD]
    omega
  · rw [read_persistent_clock_adds, hns]
    rfl

/-- Witness for C17: the readings 0 and then `2^32 - 1` seconds with
`2^32 - 1` milliseconds, the largest difference two readings can have. -/
theorem persistent_clock_product_exact_witness :
    persistent_clock_delta tegra3
        (rtc_advance (rtc_block tegra3 4294967295 4294967295)
          (read_persistent_clock tegra3 (rtc_advance (rtc_block tegra3 0 0) boot)).2)
      = (2 ^ 32 - 1) * 1001 ∧
    persistent_clock_added_ns tegra3
        (rtc_advance (rtc_block tegra3 4294967295 4294967295)
          (read_persistent_clock tegra3 (rtc_advance (rtc_block tegra3 0 0) boot)).2)
      = (2 ^ 32 - 1) * 1001 * 1000000 := by
  have h := persistent_clock_product_exact tegra3 boot (rtc_block tegra3 0 0)
    (rtc_block tegra3 4294967295 4294967295) (by decide) (by decide) (by decide) (by decide)
    (by decide)
  exact ⟨h.1.trans (by decide), h.2.2.2.2.1.trans (by decide)⟩

/-! ## The countdown field of the event timer -/

/-- C18: for `cycles ≤ 2^29` the single value that
`tegra_timer_set_next_event` writes to PTV has bit 31 set and bits 30
(periodic) and 29 clear, its low 29 bits holding the countdown; and for the
32-bit value `cycles = 2^30 + 1`, above that range, the value written has
bit 30 set. -/
theorem set_next_event_one_shot_range (P : Platform) (s : State) (cycles : Nat)
    (hmax : cycles ≤ 2 ^ 29) :
    (tegra_timer_set_next_event P cycles s).2.log
      = s.log ++ [Event.timer_write
          ((tegra_timer_set_next_event P cycles s).2.timer_regs (s.system_timer + P.TIMER_PTV))
          (s.system_timer + P.TIMER_PTV)] ∧
    ((tegra_timer_set_next_event P cycles s).2.timer_regs
      (s.system_timer + P.TIMER_PTV)).testBit 31 = true ∧
    ((tegra_timer_set_next_event P cycles s).2.timer_regs
      (s.system_timer + P.TIMER_PTV)).testBit 30 = false ∧
    ((tegra_timer_set_next_event P cycles s).2.timer_regs
      (s.system_timer + P.TIMER_PTV)).testBit 29 = false ∧
    (tegra_timer_set_next_event P cycles s).2.timer_regs (s.system_timer + P.TIMER_PTV) % 2 ^ 29
      = (if cycles > 1 then cycles - 1 else 0) ∧
    (∃ c : Nat, 2 ^ 29 < c ∧ c < 2 ^ 32 ∧ c = 2 ^ 30 + 1 ∧
      ((tegra_timer_set_next_event P c s).2.timer_regs
        (s.system_timer + P.TIMER_PTV)).testBit 30 = true) := by
  have hc : (if cycles > 1 then cycles - 1 else 0) < 2 ^ 29 := by
    split <;> omega
  have hor : 0x80000000 ||| (if cycles > 1 then cycles - 1 else 0)
      = 2 ^ 31 + (if cycles > 1 then cycles - 1 else 0) := by
    have h := or_high_bits 31 1 (if cycles > 1 then cycles - 1 else 0) (by omega)
    simpa using h
  have hreg : (tegra_timer_set_next_event P cycles s).2.timer_regs
      (s.system_timer + P.TIMER_PTV)
      = 2 ^ 31 + (if cycles > 1 then cycles - 1 else 0) := by
    simp only [tegra_timer_set_next_event, timer_writel_reads_back, U32_MOD, hor]
    omega
  refine ⟨?_, ?_, ?_, ?_, ?_, ?_⟩
  · simp [tegra_timer_set_next_event, timer_writel]
  · rw [hreg, Nat.testBit_two_pow_add_eq, Nat.testBit_lt_two_pow (by omega)]
    rfl
  · rw [hreg, Nat.testBit_two_pow_add_gt (by omega), Nat.testBit_lt_two_pow (by omega)]
  · rw [hreg, Nat.testBit_two_pow_add_gt (by omega), Nat.testBit_lt_two_pow (by omega)]
  · rw [hreg]
    omega
  · refine ⟨2 ^ 30 + 1, by norm_num, by norm_num, rfl, ?_⟩
    simp only [tegra_timer_set_next_event, timer_writel_reads_back, U32_MOD]
    decide

/-- Witness for C18: `cycles = 2^29`, the largest value of the range, from
the boot state. -/
theorem set_next_event_one_shot_range_witness :
    ((tegra_timer_set_next_event tegra3 (2 ^ 29) boot).2.timer_regs
      (boot.system_timer + tegra3.TIMER_PTV)).testBit 30 = false ∧
    ((tegra_timer_set_next_event tegra3 (2 ^ 29) boot).2.timer_regs
      (boot.system_timer + tegra3.TIMER_PTV)).testBit 29 = false :=
  ⟨(set_next_event_one_shot_range tegra3 boot (2 ^ 29) (by decide)).2.2.1,
    (set_next_event_one_shot_range tegra3 boot (2 ^ 29) (by decide)).2.2.2.1⟩

end TegraTimer
